import Mathlib

/-!
Verification development for the `sitter_tree_mcp` sample repository.

The repository ships four C++ translation units under `src/test_samples/`
(`basic_example.cpp`, `data_structures.cpp`, `namespaces.cpp`,
`templates.cpp`) that serve as fixtures for a syntax-tree parsing engine
described by the specification.  This file embeds:

* the abstract syntax of the four sample files, hand-translated
  declaration by declaration from the C++ sources into the AST node
  taxonomy of the specification's data model;
* executable semantics for the concrete functions the claims talk about
  (`factorial`, `LinkedList` operations, the two `Array` classes);
* a model of the Scope/Namespace Resolver, which the repository does not
  implement, built from the specification's description;
* the raw line contents of each sample file, for the line-count claim.
-/

/-- C++ access specifiers as they appear in class bodies. -/
inductive AccessSpec where
  | pub
  | priv
  | prot
deriving DecidableEq

/-- A template parameter: a type parameter (`typename T`), a non-type
parameter with its declared type (`int Size`), or a parameter pack
(`typename... Args`). -/
inductive TemplateParam where
  | typeParam (name : String)
  | nonTypeParam (ptype : String) (name : String)
  | packParam (name : String)
deriving DecidableEq

mutual
/-- A type reference: qualified path, template arguments, pointer depth,
reference flag and const qualification. -/
inductive TypeRef where
  | mk (path : List String) (targs : List TemplateArg) (ptrDepth : Nat)
       (isRef : Bool) (isConstQual : Bool)

/-- A template argument: a type, or a non-type (integer) value such as the
`8` in `Array<bool, 8>`. -/
inductive TemplateArg where
  | typeArg (t : TypeRef)
  | valueArg (n : Int)
end

mutual
/-- Expressions of the C++ subset exercised by the sample files. -/
inductive Expr where
  | lit (v : String)
  | ident (path : List String)
  | binop (op : String) (l : Expr) (r : Expr)
  | unop (op : String) (e : Expr)
  | call (callee : Expr) (targs : List TemplateArg) (args : List Expr)
  | member (base : Expr) (fieldName : String) (isArrow : Bool)
  | index (base : Expr) (idx : Expr)
  | ternary (c : Expr) (t : Expr) (e : Expr)
  | foldExpr (op : String) (ini : Expr) (pack : Expr)

/-- Statements of the C++ subset exercised by the sample files. -/
inductive Stmt where
  | exprStmt (e : Expr)
  | declStmt (t : TypeRef) (name : String) (ctorArgs : List Expr)
  | declInit (t : TypeRef) (name : String) (ini : Expr)
  | ifStmt (cond : Expr) (thenB : List Stmt) (elseB : List Stmt)
  | whileStmt (cond : Expr) (body : List Stmt)
  | forStmt (t : TypeRef) (v : String) (ini : Expr) (cond : Expr)
            (step : Expr) (body : List Stmt)
  | ret (e : Option Expr)
  | throwStmt (e : Expr)
end

/-- A function or constructor parameter: type, name, optional default
argument, and whether it is a parameter pack (`Args... args`). -/
structure ParamDecl where
  ptype : TypeRef
  pname : String
  defaultVal : Option Expr
  isPack : Bool

mutual
/-- Top-level and namespace-level declarations. -/
inductive CppDecl where
  | includeDir (header : String)
  | namespaceDecl (name : String) (body : List CppDecl)
  | namespaceAlias (aliasName : String) (targetPath : List String)
  | functionDecl (name : String) (tparams : List TemplateParam)
      (rtype : TypeRef) (params : List ParamDecl)
      (isVariadicTemplate : Bool) (body : List Stmt)
  | classDecl (isStruct : Bool) (name : String)
      (tparams : List TemplateParam) (specializationArgs : List TemplateArg)
      (bases : List TypeRef) (members : List MemberDecl)
  | varDecl (t : TypeRef) (name : String) (ini : Option Expr)

/-- Class members, each carrying its effective access specifier. -/
inductive MemberDecl where
  | fieldM (access : AccessSpec) (fname : String) (ftype : TypeRef)
      (arrLen : Option Expr)
  | ctorM (access : AccessSpec) (params : List ParamDecl)
      (inits : List (String × Expr)) (body : List Stmt)
  | methodM (access : AccessSpec) (name : String)
      (tparams : List TemplateParam) (rtype : TypeRef)
      (params : List ParamDecl) (isConst : Bool) (body : List Stmt)
end

/-- Plain unqualified or qualified type with no template arguments. -/
def ty0 (p : List String) : TypeRef := .mk p [] 0 false false

/-- Type with template arguments. -/
def tyT (p : List String) (ta : List TemplateArg) : TypeRef :=
  .mk p ta 0 false false

/-- Non-const reference type such as `T&`. -/
def tyR (p : List String) : TypeRef := .mk p [] 0 true false

/-- Const reference type such as `const Point&`. -/
def tyCR (p : List String) : TypeRef := .mk p [] 0 true true

/-- Plain (non-pack, no default) parameter. -/
def param (t : TypeRef) (n : String) : ParamDecl := ⟨t, n, none, false⟩

/-! ## Semantics of `factorial` (basic_example.cpp, lines 4-9)

C++ `int` is 32-bit two's complement; `wrap32` normalizes an integer into
the representable range `[-2^31, 2^31)`, modelling wraparound arithmetic. -/

/-- Wraparound normalization into 32-bit two's complement range. -/
def wrap32 (x : Int) : Int := (x + 2 ^ 31) % 2 ^ 32 - 2 ^ 31

/-- Embedding of `factorial` from basic_example.cpp: returns 1 when
`n <= 1`, otherwise `n * factorial(n - 1)` in wraparound 32-bit
arithmetic.  Total, by well-founded recursion on `n.toNat`. -/
def factorial (n : Int) : Int :=
  if n ≤ 1 then 1 else wrap32 (n * factorial (n - 1))
termination_by n.toNat
decreasing_by
  rename_i h
  omega

example : factorial 0 = 1 := by
  rw [factorial.eq_def]
  norm_num

example : factorial 2 = 2 := by
  rw [factorial.eq_def]
  norm_num
  rw [factorial.eq_def]
  norm_num [wrap32]

/-! ## AST embedding of basic_example.cpp

Hand-translated from `src/test_samples/basic_example.cpp`; comments and
blank lines of the source carry no AST nodes. -/

/-- Lines 4-9: `int factorial(int n) { if (n <= 1) { return 1; } return n * factorial(n - 1); }`. -/
def factorialDecl : CppDecl :=
  .functionDecl "factorial" [] (ty0 ["int"]) [param (ty0 ["int"]) "n"] false
    [ .ifStmt (.binop "<=" (.ident ["n"]) (.lit "1"))
        [ .ret (some (.lit "1")) ] [],
      .ret (some (.binop "*" (.ident ["n"])
        (.call (.ident ["factorial"]) [] [.binop "-" (.ident ["n"]) (.lit "1")]))) ]

/-- Lines 12-28: `class Calculator` with a constructor, two member
functions and a private field. -/
def calculatorDecl : CppDecl :=
  .classDecl false "Calculator" [] [] []
    [ .ctorM .pub [] [("value", .lit "0")] [],
      .methodM .pub "computeFactorial" [] (ty0 ["void"])
        [param (ty0 ["int"]) "n"] false
        [ .exprStmt (.binop "=" (.ident ["value"])
            (.call (.ident ["factorial"]) [] [.ident ["n"]])) ],
      .methodM .pub "getValue" [] (ty0 ["int"]) [] true
        [ .ret (some (.ident ["value"])) ],
      .fieldM .priv "value" (ty0 ["int"]) none ]

/-- Line 33: the call `calc.computeFactorial<Calculator>(5)` — a member
call carrying an explicit template argument list. -/
def computeFactorialCall : Expr :=
  .call (.member (.ident ["calc"]) "computeFactorial" false)
    [.typeArg (ty0 ["Calculator"])] [.lit "5"]

/-- Lines 31-35: `int main()` of basic_example.cpp. -/
def basicMainDecl : CppDecl :=
  .functionDecl "main" [] (ty0 ["int"]) [] false
    [ .declStmt (ty0 ["Calculator"]) "calc" [],
      .exprStmt computeFactorialCall,
      .ret (some (.call (.member (.ident ["calc"]) "getValue" false) [] [])) ]

/-- The translation unit of basic_example.cpp. -/
def basicExampleCpp : List CppDecl :=
  [factorialDecl, calculatorDecl, basicMainDecl]

/-! ## AST embedding of templates.cpp -/

/-- Lines 9-12: the function template `max`. -/
def maxDecl : CppDecl :=
  .functionDecl "max" [.typeParam "T"] (ty0 ["T"])
    [param (ty0 ["T"]) "a", param (ty0 ["T"]) "b"] false
    [ .ret (some (.ternary (.binop ">" (.ident ["a"]) (.ident ["b"]))
        (.ident ["a"]) (.ident ["b"]))) ]

/-- Lines 15-37: the primary class template `Array<T, Size>`. -/
def arrayPrimaryDecl : CppDecl :=
  .classDecl false "Array" [.typeParam "T", .nonTypeParam "int" "Size"] [] []
    [ .fieldM .priv "data" (ty0 ["T"]) (some (.ident ["Size"])),
      .ctorM .pub [] []
        [ .forStmt (ty0 ["int"]) "i" (.lit "0")
            (.binop "<" (.ident ["i"]) (.ident ["Size"]))
            (.unop "++" (.ident ["i"]))
            [ .exprStmt (.binop "=" (.index (.ident ["data"]) (.ident ["i"]))
                (.call (.ident ["T"]) [] [])) ] ],
      .methodM .pub "operator[]" [] (tyR ["T"]) [param (ty0 ["int"]) "index"] false
        [ .ifStmt (.binop "||" (.binop "<" (.ident ["index"]) (.lit "0"))
              (.binop ">=" (.ident ["index"]) (.ident ["Size"])))
            [ .throwStmt (.call (.ident ["std", "out_of_range"]) []
                [.lit "Index out of range"]) ] [],
          .ret (some (.index (.ident ["data"]) (.ident ["index"]))) ],
      .methodM .pub "size" [] (ty0 ["int"]) [] true
        [ .ret (some (.ident ["Size"])) ] ]

/-- Lines 40-70: the explicit full specialization `template<> class Array<bool, 8>`. -/
def arraySpecDecl : CppDecl :=
  .classDecl false "Array" [] [.typeArg (ty0 ["bool"]), .valueArg 8] []
    [ .fieldM .priv "data" (ty0 ["unsigned char"]) none,
      .ctorM .pub [] [("data", .lit "0")] [],
      .methodM .pub "operator[]" [] (ty0 ["bool"]) [param (ty0 ["int"]) "index"] false
        [ .ifStmt (.binop "||" (.binop "<" (.ident ["index"]) (.lit "0"))
              (.binop ">=" (.ident ["index"]) (.lit "8")))
            [ .throwStmt (.call (.ident ["std", "out_of_range"]) []
                [.lit "Index out of range"]) ] [],
          .ret (some (.binop "!="
            (.binop "&" (.ident ["data"])
              (.binop "<<" (.lit "1") (.ident ["index"])))
            (.lit "0"))) ],
      .methodM .pub "set" [] (ty0 ["void"])
        [param (ty0 ["int"]) "index", param (ty0 ["bool"]) "value"] false
        [ .ifStmt (.binop "||" (.binop "<" (.ident ["index"]) (.lit "0"))
              (.binop ">=" (.ident ["index"]) (.lit "8")))
            [ .throwStmt (.call (.ident ["std", "out_of_range"]) []
                [.lit "Index out of range"]) ] [],
          .ifStmt (.ident ["value"])
            [ .exprStmt (.binop "|=" (.ident ["data"])
                (.binop "<<" (.lit "1") (.ident ["index"]))) ]
            [ .exprStmt (.binop "&=" (.ident ["data"])
                (.unop "~" (.binop "<<" (.lit "1") (.ident ["index"])))) ] ],
      .methodM .pub "size" [] (ty0 ["int"]) [] true
        [ .ret (some (.lit "8")) ] ]

/-- Lines 73-76: the variadic function template `print`. -/
def printDecl : CppDecl :=
  .functionDecl "print" [.packParam "Args"] (ty0 ["void"])
    [⟨ty0 ["Args"], "args", none, true⟩] true
    [ .exprStmt (.binop "<<"
        (.foldExpr "<<" (.ident ["std", "cout"]) (.ident ["args"]))
        (.ident ["std", "endl"])) ]

/-- Shorthand for a `std::cout << a << ... << std::endl;` chain. -/
def coutChain (parts : List Expr) : Stmt :=
  .exprStmt (.binop "<<"
    (parts.foldl (fun acc e => .binop "<<" acc e) (.ident ["std", "cout"]))
    (.ident ["std", "endl"]))

/-- Lines 78-105: `int main()` of templates.cpp. -/
def templatesMainDecl : CppDecl :=
  .functionDecl "main" [] (ty0 ["int"]) [] false
    [ coutChain [.lit "Max of 10 and 20: ",
        .call (.ident ["max"]) [] [.lit "10", .lit "20"]],
      coutChain [.lit "Max of 3.14 and 2.71: ",
        .call (.ident ["max"]) [] [.lit "3.14", .lit "2.71"]],
      coutChain [.lit "Max of \x27a\x27 and \x27z\x27: ",
        .call (.ident ["max"]) [] [.lit "a", .lit "z"]],
      .declStmt (tyT ["Array"] [.typeArg (ty0 ["int"]), .valueArg 5]) "intArray" [],
      .exprStmt (.binop "=" (.index (.ident ["intArray"]) (.lit "0")) (.lit "10")),
      .exprStmt (.binop "=" (.index (.ident ["intArray"]) (.lit "1")) (.lit "20")),
      coutChain [.lit "intArray[0] = ", .index (.ident ["intArray"]) (.lit "0")],
      coutChain [.lit "intArray[1] = ", .index (.ident ["intArray"]) (.lit "1")],
      .declStmt (tyT ["Array"] [.typeArg (ty0 ["bool"]), .valueArg 8]) "boolArray" [],
      .exprStmt (.call (.member (.ident ["boolArray"]) "set" false) []
        [.lit "0", .lit "true"]),
      .exprStmt (.call (.member (.ident ["boolArray"]) "set" false) []
        [.lit "3", .lit "true"]),
      coutChain [.lit "boolArray[0] = ", .index (.ident ["boolArray"]) (.lit "0")],
      coutChain [.lit "boolArray[1] = ", .index (.ident ["boolArray"]) (.lit "1")],
      coutChain [.lit "boolArray[3] = ", .index (.ident ["boolArray"]) (.lit "3")],
      .exprStmt (.call (.ident ["print"]) []
        [.lit "Hello", .lit ", ", .lit "world", .lit "! ", .lit "123"]),
      .ret (some (.lit "0")) ]

/-- The translation unit of templates.cpp (lines 4-6 are includes). -/
def templatesCpp : List CppDecl :=
  [ .includeDir "iostream", .includeDir "vector", .includeDir "string",
    maxDecl, arrayPrimaryDecl, arraySpecDecl, printDecl, templatesMainDecl ]

/-! ## AST embedding of namespaces.cpp -/

/-- Lines 21-29: `struct Point` inside `math::geometry`. -/
def pointDecl : CppDecl :=
  .classDecl true "Point" [] [] []
    [ .fieldM .pub "x" (ty0 ["double"]) none,
      .fieldM .pub "y" (ty0 ["double"]) none,
      .ctorM .pub
        [⟨ty0 ["double"], "x_val", some (.lit "0"), false⟩,
         ⟨ty0 ["double"], "y_val", some (.lit "0"), false⟩]
        [("x", .ident ["x_val"]), ("y", .ident ["y_val"])] [],
      .methodM .pub "distance" [] (ty0 ["double"])
        [param (tyCR ["Point"]) "other"] true
        [ .ret (some (.call (.ident ["std", "sqrt"]) []
            [ .binop "+"
                (.call (.ident ["square"]) []
                  [.binop "-" (.ident ["x"]) (.member (.ident ["other"]) "x" false)])
                (.call (.ident ["square"]) []
                  [.binop "-" (.ident ["y"]) (.member (.ident ["other"]) "y" false)]) ])) ] ]

/-- Lines 31-44: `struct Circle` inside `math::geometry`. -/
def circleDecl : CppDecl :=
  .classDecl true "Circle" [] [] []
    [ .fieldM .pub "center" (ty0 ["Point"]) none,
      .fieldM .pub "radius" (ty0 ["double"]) none,
      .ctorM .pub
        [param (tyCR ["Point"]) "c", param (ty0 ["double"]) "r"]
        [("center", .ident ["c"]), ("radius", .ident ["r"])] [],
      .methodM .pub "area" [] (ty0 ["double"]) [] true
        [ .ret (some (.binop "*" (.ident ["PI"])
            (.call (.ident ["square"]) [] [.ident ["radius"]]))) ],
      .methodM .pub "circumference" [] (ty0 ["double"]) [] true
        [ .ret (some (.binop "*" (.binop "*" (.lit "2") (.ident ["PI"]))
            (.ident ["radius"]))) ] ]

/-- Lines 20-45: the nested namespace `geometry`. -/
def geometryNs : CppDecl := .namespaceDecl "geometry" [pointDecl, circleDecl]

/-- Lines 8-46: the top-level namespace `math`, holding `PI`, `square`,
`cube` and the nested namespace `geometry`. -/
def mathNs : CppDecl :=
  .namespaceDecl "math"
    [ .varDecl (.mk ["double"] [] 0 false true) "PI"
        (some (.lit "3.14159265358979323846")),
      .functionDecl "square" [] (ty0 ["double"]) [param (ty0 ["double"]) "x"] false
        [ .ret (some (.binop "*" (.ident ["x"]) (.ident ["x"]))) ],
      .functionDecl "cube" [] (ty0 ["double"]) [param (ty0 ["double"]) "x"] false
        [ .ret (some (.binop "*" (.binop "*" (.ident ["x"]) (.ident ["x"]))
            (.ident ["x"]))) ],
      geometryNs ]

/-- Lines 49-58: the top-level namespace `utils`. -/
def utilsNs : CppDecl :=
  .namespaceDecl "utils"
    [ .functionDecl "print_separator" [] (ty0 ["void"]) [] false
        [ coutChain [.lit "------------------------------"] ],
      .functionDecl "print_value" [.typeParam "T"] (ty0 ["void"])
        [param (.mk ["std", "string"] [] 0 true true) "name",
         param (tyCR ["T"]) "value"] false
        [ coutChain [.ident ["name"], .lit " = ", .ident ["value"]] ] ]

/-- Line 61: `namespace geo = math::geometry;`. -/
def geoAliasDecl : CppDecl := .namespaceAlias "geo" ["math", "geometry"]

/-- Lines 63-83: `int main()` of namespaces.cpp. -/
def namespacesMainDecl : CppDecl :=
  .functionDecl "main" [] (ty0 ["int"]) [] false
    [ .declInit (ty0 ["double"]) "val" (.lit "3.0"),
      coutChain [.lit "Square of ", .ident ["val"], .lit " = ",
        .call (.ident ["math", "square"]) [] [.ident ["val"]]],
      coutChain [.lit "Cube of ", .ident ["val"], .lit " = ",
        .call (.ident ["math", "cube"]) [] [.ident ["val"]]],
      .exprStmt (.call (.ident ["utils", "print_separator"]) [] []),
      .declStmt (ty0 ["geo", "Point"]) "p1" [.lit "3", .lit "4"],
      .declStmt (ty0 ["geo", "Point"]) "p2" [.lit "6", .lit "8"],
      .exprStmt (.call (.ident ["utils", "print_value"]) []
        [.lit "Distance between points",
         .call (.member (.ident ["p1"]) "distance" false) [] [.ident ["p2"]]]),
      .declStmt (ty0 ["geo", "Circle"]) "circle" [.ident ["p1"], .lit "5"],
      .exprStmt (.call (.ident ["utils", "print_value"]) []
        [.lit "Circle area",
         .call (.member (.ident ["circle"]) "area" false) [] []]),
      .exprStmt (.call (.ident ["utils", "print_value"]) []
        [.lit "Circle circumference",
         .call (.member (.ident ["circle"]) "circumference" false) [] []]),
      .ret (some (.lit "0")) ]

/-- The translation unit of namespaces.cpp (lines 4-5 are includes). -/
def namespacesCpp : List CppDecl :=
  [ .includeDir "iostream", .includeDir "string",
    mathNs, utilsNs, geoAliasDecl, namespacesMainDecl ]

/-! ## AST embedding of data_structures.cpp -/

/-- The type `std::shared_ptr<Node<T>>`. -/
def sharedPtrNodeT : TypeRef :=
  tyT ["std", "shared_ptr"] [.typeArg (tyT ["Node"] [.typeArg (ty0 ["T"])])]

/-- Line 7: `struct Node_base {};`. -/
def nodeBaseDecl : CppDecl := .classDecl true "Node_base" [] [] [] []

/-- Lines 10-21: the node template `struct Node : Node_base`. -/
def nodeDecl : CppDecl :=
  .classDecl true "Node" [.typeParam "T"] [] [ty0 ["Node_base"]]
    [ .fieldM .pub "data" (ty0 ["T"]) none,
      .fieldM .pub "next" sharedPtrNodeT none,
      .ctorM .pub [param (ty0 ["T"]) "value"]
        [("data", .ident ["value"]), ("next", .lit "nullptr")] [],
      .methodM .pub "print" [] (ty0 ["void"]) [] true
        [ coutChain [.ident ["data"], .lit " -> ",
            .ternary (.ident ["next"])
              (.member (.ident ["next"]) "data" true) (.lit "nullptr")] ] ]

/-- Lines 24-79: the class template `LinkedList<T>`. -/
def linkedListDecl : CppDecl :=
  .classDecl false "LinkedList" [.typeParam "T"] [] []
    [ .fieldM .priv "head" sharedPtrNodeT none,
      .fieldM .priv "size" (ty0 ["size_t"]) none,
      .ctorM .pub [] [("head", .lit "nullptr"), ("size", .lit "0")] [],
      .methodM .pub "push_front" [] (ty0 ["void"]) [param (ty0 ["T"]) "value"] false
        [ .declInit (ty0 ["auto"]) "new_node"
            (.call (.ident ["std", "make_shared"])
              [.typeArg (tyT ["Node"] [.typeArg (ty0 ["T"])])] [.ident ["value"]]),
          .exprStmt (.binop "=" (.member (.ident ["new_node"]) "next" true)
            (.ident ["head"])),
          .exprStmt (.binop "=" (.ident ["head"]) (.ident ["new_node"])),
          .exprStmt (.unop "++" (.ident ["size"])) ],
      .methodM .pub "push_back" [] (ty0 ["void"]) [param (ty0 ["T"]) "value"] false
        [ .declInit (ty0 ["auto"]) "new_node"
            (.call (.ident ["std", "make_shared"])
              [.typeArg (tyT ["Node"] [.typeArg (ty0 ["T"])])] [.ident ["value"]]),
          .ifStmt (.unop "!" (.ident ["head"]))
            [ .exprStmt (.binop "=" (.ident ["head"]) (.ident ["new_node"])) ]
            [ .declInit (ty0 ["auto"]) "current" (.ident ["head"]),
              .whileStmt (.member (.ident ["current"]) "next" true)
                [ .exprStmt (.binop "=" (.ident ["current"])
                    (.member (.ident ["current"]) "next" true)) ],
              .exprStmt (.binop "=" (.member (.ident ["current"]) "next" true)
                (.ident ["new_node"])) ],
          .exprStmt (.unop "++" (.ident ["size"])) ],
      .methodM .pub "pop_front" [] (ty0 ["void"]) [] false
        [ .ifStmt (.ident ["head"])
            [ .exprStmt (.binop "=" (.ident ["head"])
                (.member (.ident ["head"]) "next" true)),
              .exprStmt (.unop "--" (.ident ["size"])) ] [] ],
      .methodM .pub "get_size" [] (ty0 ["size_t"]) [] true
        [ .ret (some (.ident ["size"])) ],
      .methodM .pub "print" [] (ty0 ["void"]) [] true
        [ .declInit (ty0 ["auto"]) "current" (.ident ["head"]),
          .whileStmt (.ident ["current"])
            [ .exprStmt (.binop "<<" (.binop "<<" (.ident ["std", "cout"])
                (.member (.ident ["current"]) "data" true)) (.lit " -> ")),
              .exprStmt (.binop "=" (.ident ["current"])
                (.member (.ident ["current"]) "next" true)) ],
          coutChain [.lit "nullptr"] ] ]

/-- Lines 82-103: `int main()` of data_structures.cpp. -/
def dataStructuresMainDecl : CppDecl :=
  .functionDecl "main" [] (ty0 ["int"]) [] false
    [ .declStmt (tyT ["LinkedList"] [.typeArg (ty0 ["int"])]) "list" [],
      .exprStmt (.call (.member (.ident ["list"]) "push_back" false) [] [.lit "1"]),
      .exprStmt (.call (.member (.ident ["list"]) "push_back" false) [] [.lit "2"]),
      .exprStmt (.call (.member (.ident ["list"]) "push_back" false) [] [.lit "3"]),
      .exprStmt (.call (.member (.ident ["list"]) "push_front" false) [] [.lit "0"]),
      coutChain [.lit "List size: ",
        .call (.member (.ident ["list"]) "get_size" false) [] []],
      .exprStmt (.call (.member (.ident ["list"]) "print" false) [] []),
      .exprStmt (.call (.member (.ident ["list"]) "pop_front" false) [] []),
      coutChain [.lit "After pop_front, list size: ",
        .call (.member (.ident ["list"]) "get_size" false) [] []],
      .exprStmt (.call (.member (.ident ["list"]) "print" false) [] []),
      .ret (some (.lit "0")) ]

/-- The translation unit of data_structures.cpp (lines 4-5 are includes). -/
def dataStructuresCpp : List CppDecl :=
  [ .includeDir "iostream", .includeDir "memory",
    nodeBaseDecl, nodeDecl, linkedListDecl, dataStructuresMainDecl ]

/-! ## Structural queries over the AST -/

/-- Name introduced by a declaration, if any. -/
def declName : CppDecl → Option String
  | .includeDir _ => none
  | .namespaceDecl n _ => some n
  | .namespaceAlias a _ => some a
  | .functionDecl n _ _ _ _ _ => some n
  | .classDecl _ n _ _ _ _ => some n
  | .varDecl _ n _ => some n

mutual
/-- All declarations in a subtree, namespaces included, in source order. -/
def declsInTree : CppDecl → List CppDecl
  | .namespaceDecl n body => .namespaceDecl n body :: declsInTreeList body
  | d => [d]

/-- All declarations in a forest of subtrees. -/
def declsInTreeList : List CppDecl → List CppDecl
  | [] => []
  | d :: ds => declsInTree d ++ declsInTreeList ds
end

/-- Class-declaration summary: name, template parameters, specialization
arguments. -/
def classInfo : CppDecl → Option (String × List TemplateParam × List TemplateArg)
  | .classDecl _ n tp sa _ _ => some (n, tp, sa)
  | _ => none

/-- Summaries of every class declaration in a translation unit. -/
def classSummaries (ds : List CppDecl) : List (String × List TemplateParam × List TemplateArg) :=
  (declsInTreeList ds).filterMap classInfo

/-- Summaries of the class declarations with a given name. -/
def classSummariesNamed (nm : String) (ds : List CppDecl) :
    List (String × List TemplateParam × List TemplateArg) :=
  (classSummaries ds).filter (fun c => c.1 == nm)

/-- The data-model invariant: a class declaration with non-empty
specialization arguments has empty template parameters. -/
def specializationInvariant (ds : List CppDecl) : Bool :=
  (classSummaries ds).all (fun c => c.2.2.isEmpty || c.2.1.isEmpty)

/-- Bool test for namespace declarations. -/
def isNamespaceDecl : CppDecl → Bool
  | .namespaceDecl _ _ => true
  | _ => false

/-- Names of the namespaces declared directly in a declaration list. -/
def directNsNames (ds : List CppDecl) : List String :=
  ds.filterMap (fun d => match d with
    | .namespaceDecl n _ => some n
    | _ => none)

/-- Names of the namespaces declared directly inside a namespace body. -/
def childNsNames : CppDecl → List String
  | .namespaceDecl _ body => directNsNames body
  | _ => []

/-- Number of namespace declarations in a whole translation unit. -/
def nsCountTree (ds : List CppDecl) : Nat :=
  ((declsInTreeList ds).filter isNamespaceDecl).length

mutual
/-- All namespace aliases in a subtree, as (alias, target path) pairs. -/
def aliasesIn : CppDecl → List (String × List String)
  | .namespaceAlias a t => [(a, t)]
  | .namespaceDecl _ body => aliasesInList body
  | _ => []

/-- All namespace aliases in a forest of subtrees. -/
def aliasesInList : List CppDecl → List (String × List String)
  | [] => []
  | d :: ds => aliasesIn d ++ aliasesInList ds
end

/-- Qualified path of a type reference. -/
def typePath : TypeRef → List String
  | .mk p _ _ _ _ => p

mutual
/-- Qualified paths occurring in a type reference. -/
def pathsInType : TypeRef → List (List String)
  | .mk p ta _ _ _ => p :: pathsInTargs ta

/-- Qualified paths occurring in a template-argument list. -/
def pathsInTargs : List TemplateArg → List (List String)
  | [] => []
  | .typeArg t :: rest => pathsInType t ++ pathsInTargs rest
  | .valueArg _ :: rest => pathsInTargs rest
end

mutual
/-- Qualified paths referenced by an expression, in source order. -/
def pathsInExpr : Expr → List (List String)
  | .lit _ => []
  | .ident p => [p]
  | .binop _ l r => pathsInExpr l ++ pathsInExpr r
  | .unop _ e => pathsInExpr e
  | .call c ta args => pathsInExpr c ++ pathsInTargs ta ++ pathsInExprList args
  | .member b _ _ => pathsInExpr b
  | .index b i => pathsInExpr b ++ pathsInExpr i
  | .ternary c t e => pathsInExpr c ++ pathsInExpr t ++ pathsInExpr e
  | .foldExpr _ i p => pathsInExpr i ++ pathsInExpr p

/-- Qualified paths referenced by an expression list. -/
def pathsInExprList : List Expr → List (List String)
  | [] => []
  | e :: es => pathsInExpr e ++ pathsInExprList es
end

mutual
/-- Qualified paths referenced by a statement (types and expressions). -/
def pathsInStmt : Stmt → List (List String)
  | .exprStmt e => pathsInExpr e
  | .declStmt t _ args => pathsInType t ++ pathsInExprList args
  | .declInit t _ i => pathsInType t ++ pathsInExpr i
  | .ifStmt c th el => pathsInExpr c ++ pathsInStmtList th ++ pathsInStmtList el
  | .whileStmt c b => pathsInExpr c ++ pathsInStmtList b
  | .forStmt t _ i c s b =>
      pathsInType t ++ pathsInExpr i ++ pathsInExpr c ++ pathsInExpr s ++
        pathsInStmtList b
  | .ret (some e) => pathsInExpr e
  | .ret none => []
  | .throwStmt e => pathsInExpr e

/-- Qualified paths referenced by a statement list. -/
def pathsInStmtList : List Stmt → List (List String)
  | [] => []
  | s :: ss => pathsInStmt s ++ pathsInStmtList ss
end

/-- Qualified paths referenced inside a function body. -/
def fnBodyPaths : CppDecl → List (List String)
  | .functionDecl _ _ _ _ _ body => pathsInStmtList body
  | _ => []

/-! ## Scope/Namespace Resolver

Modelled from the spec: the repository ships no parsing engine, so the
Resolver of spec section 4.5 is reconstructed here from its description —
it walks the translation unit, registers declarations per namespace
scope, applies any `NamespaceAlias` substitution on the leading path
segment of each qualified reference, searches the current scope and its
enclosing chain, and records the outcome in a side table keyed by the
reference, never mutating the AST. -/

/-- Resolution outcome for one qualified-name reference. -/
inductive ResolutionResult where
  | resolved (absPath : List String)
  | unresolvedNotFound
  | unresolvedAmbiguous
deriving DecidableEq

/-- Modelled from the spec: alias substitution on the leading path
segment of a qualified name. -/
def applyAlias (tbl : List (String × List String)) : List String → List String
  | [] => []
  | p :: rest =>
    match tbl.lookup p with
    | some tgt => tgt ++ rest
    | none => p :: rest

mutual
/-- Absolute scope path of every entity declared in a subtree, paired
with its declaration (descending only through namespaces), in source
order. -/
def declsAtPaths : CppDecl → List (List String × CppDecl)
  | .namespaceDecl n body =>
    ([n], .namespaceDecl n body) ::
      (declsAtPathsList body).map (fun e => (n :: e.1, e.2))
  | d =>
    match declName d with
    | some n => [([n], d)]
    | none => []

/-- Absolute scope paths declared by a forest of subtrees. -/
def declsAtPathsList : List CppDecl → List (List String × CppDecl)
  | [] => []
  | d :: ds => declsAtPaths d ++ declsAtPathsList ds
end

/-- Modelled from the spec: whether the declaration forest declares an
entity at the given absolute scope path. -/
def declaresPath (ds : List CppDecl) (p : List String) : Bool :=
  (declsAtPathsList ds).any (fun e => e.1 == p)

/-- Modelled from the spec: the declaration found at an absolute scope
path, if any (first match in source order). -/
def findDeclAt (ds : List CppDecl) (p : List String) : Option CppDecl :=
  ((declsAtPathsList ds).find? (fun e => e.1 == p)).map (fun e => e.2)

/-- Modelled from the spec: resolve one qualified reference by applying
alias substitution, then searching the enclosing scope chain (innermost
scope first, global scope last). -/
def resolveRef (ast : List CppDecl) (tbl : List (String × List String))
    (chain : List (List String)) (p : List String) : ResolutionResult :=
  let q := applyAlias tbl p
  match chain.find? (fun sc => declaresPath ast (sc ++ q)) with
  | some sc => .resolved (sc ++ q)
  | none => .unresolvedNotFound

/-- Resolve a batch of references in a fixed scope chain. -/
def resolveAll (ast : List CppDecl) (tbl : List (String × List String))
    (chain : List (List String)) (ps : List (List String)) :
    List (List String × ResolutionResult) :=
  ps.map (fun p => (p, resolveRef ast tbl chain p))

/-- Qualified paths referenced by a parameter list (types and defaults). -/
def pathsInParams : List ParamDecl → List (List String)
  | [] => []
  | ⟨t, _, dv, _⟩ :: rest =>
    pathsInType t ++ (match dv with
      | some e => pathsInExpr e
      | none => []) ++ pathsInParams rest

/-- Qualified paths referenced by a class member. -/
def pathsInMember : MemberDecl → List (List String)
  | .fieldM _ _ t a =>
    pathsInType t ++ (match a with
      | some e => pathsInExpr e
      | none => [])
  | .ctorM _ ps inits body =>
    pathsInParams ps ++ (inits.map (fun i => pathsInExpr i.2)).flatten ++
      pathsInStmtList body
  | .methodM _ _ _ rt ps _ body =>
    pathsInType rt ++ pathsInParams ps ++ pathsInStmtList body

mutual
/-- Modelled from the spec: resolution-table entries contributed by one
declaration, given the whole translation unit, the alias table, and the
enclosing scope chain (innermost first; the chain always ends with the
global scope `[]`). -/
def tableOfDecl (ast : List CppDecl) (tbl : List (String × List String))
    (chain : List (List String)) : CppDecl → List (List String × ResolutionResult)
  | .includeDir _ => []
  | .namespaceAlias _ _ => []
  | .varDecl t _ ini =>
    resolveAll ast tbl chain (pathsInType t ++ (match ini with
      | some e => pathsInExpr e
      | none => []))
  | .functionDecl _ _ rt ps _ body =>
    resolveAll ast tbl chain
      (pathsInType rt ++ pathsInParams ps ++ pathsInStmtList body)
  | .classDecl _ n _ sa bases members =>
    resolveAll ast tbl ((chain.headD [] ++ [n]) :: chain)
      (pathsInTargs sa ++ (bases.map typePath) ++
        (members.map pathsInMember).flatten)
  | .namespaceDecl n body =>
    tableOfDecls ast tbl ((chain.headD [] ++ [n]) :: chain) body

/-- Resolution-table entries contributed by a declaration list. -/
def tableOfDecls (ast : List CppDecl) (tbl : List (String × List String))
    (chain : List (List String)) : List CppDecl → List (List String × ResolutionResult)
  | [] => []
  | d :: ds => tableOfDecl ast tbl chain d ++ tableOfDecls ast tbl chain ds
end

/-- Modelled from the spec: the full resolution table of a translation
unit — every qualified reference annotated with its resolution, the alias
table being collected from the same AST. -/
def buildResolutionTable (ast : List CppDecl) :
    List (List String × ResolutionResult) :=
  tableOfDecls ast (aliasesInList ast) [[]] ast

/-- The engine's output state: the AST (arena) plus the side
resolution table. -/
structure PipelineResult where
  astRoot : List CppDecl
  resolutionTable : List (List String × ResolutionResult)

/-- Modelled from the spec: one run of the Resolver pass — it recomputes
the side table from the AST and never mutates AST node bodies. -/
def runResolver (s : PipelineResult) : PipelineResult :=
  ⟨s.astRoot, buildResolutionTable s.astRoot⟩

/-! ## Semantics of `LinkedList<T>` (data_structures.cpp, lines 24-79)

The heap chain of `Node<T>` cells reachable from `head` via `next` is
modelled as a Lean list (head cell first, `nullptr` as the empty list);
the `size_t` counter is modelled as a natural number. -/

/-- State of a `LinkedList<T>`: the node chain reachable from `head`,
and the `size` field. -/
structure LinkedListM (T : Type) where
  head : List T
  size : Nat

/-- Lines 31: the constructor `LinkedList() : head(nullptr), size(0)`. -/
def LinkedListM.empty (T : Type) : LinkedListM T := ⟨[], 0⟩

/-- Lines 34-39: `push_front` allocates a node, links it before `head`,
rebinds `head`, and increments `size`. -/
def LinkedListM.push_front (l : LinkedListM T) (value : T) : LinkedListM T :=
  ⟨value :: l.head, l.size + 1⟩

/-- The walk of lines 48-52: step to the last node and hang the new node
on its `next`; on an empty chain the new node becomes the head
(line 46). -/
def appendLast : List T → T → List T
  | [], v => [v]
  | x :: xs, v => x :: appendLast xs v

/-- Lines 42-55: `push_back` appends at the tail and increments `size`. -/
def LinkedListM.push_back (l : LinkedListM T) (value : T) : LinkedListM T :=
  ⟨appendLast l.head value, l.size + 1⟩

/-- Lines 58-63: `pop_front` — only when `head` is non-null, rebind
`head` to `head->next` and decrement `size`. -/
def LinkedListM.pop_front (l : LinkedListM T) : LinkedListM T :=
  match l.head with
  | [] => l
  | _ :: t => ⟨t, l.size - 1⟩

/-- The invariant claimed for the class: `size` equals the number of
nodes reachable from `head`. -/
def LinkedListM.sizeInv (l : LinkedListM T) : Prop := l.size = l.head.length

/-! ## Semantics of `Array<T, Size>` and `Array<bool, 8>` (templates.cpp)

Each operation is modelled as a state transformer returning the state of
the object after the call together with an `Except` result; a thrown
`std::out_of_range` is the `.error` case, and since C++ objects persist
after a throw, the state component is the object as the call leaves it. -/

/-- Storage of the primary template `Array<T, Size>`: the `T data[Size]`
array, modelled as an indexing function; `Size` is the non-type `int`
parameter. -/
structure CppArray (T : Type) (siz : Int) where
  data : Int → T

/-- Lines 27-32: `T& operator[](int index)` of the primary template —
throws when `index < 0 || index >= Size`, otherwise yields
`data[index]`; the state is returned unchanged either way. -/
def CppArray.opIndex (a : CppArray T siz) (index : Int) :
    CppArray T siz × Except String T :=
  if index < 0 ∨ index ≥ siz then (a, .error "Index out of range")
  else (a, .ok (a.data index))

/-- Storage of the specialization `Array<bool, 8>`: the `unsigned char
data` bit set, an 8-bit byte modelled as a natural number (stores
truncate modulo 256). -/
structure ArrayBool8 where
  data : Nat

/-- Lines 48-53: `bool operator[](int index)` of the specialization —
throws when `index < 0 || index >= 8`, otherwise tests bit `index` via
`(data & (1 << index)) != 0`. -/
def ArrayBool8.opIndex (a : ArrayBool8) (index : Int) :
    ArrayBool8 × Except String Bool :=
  if index < 0 ∨ index ≥ 8 then (a, .error "Index out of range")
  else (a, .ok (a.data &&& (1 <<< index.toNat) != 0))

/-- Lines 55-65: `void set(int index, bool value)` — throws on the same
bound check before touching `data`; otherwise `data |= (1 << index)` or
`data &= ~(1 << index)` (the complement taken at `int` width, the store
truncated to the byte). -/
def ArrayBool8.set (a : ArrayBool8) (index : Int) (value : Bool) :
    ArrayBool8 × Except String Unit :=
  if index < 0 ∨ index ≥ 8 then (a, .error "Index out of range")
  else if value then
    (⟨(a.data ||| (1 <<< index.toNat)) % 256⟩, .ok ())
  else
    (⟨(a.data &&& ((2 ^ 32 - 1) ^^^ (1 <<< index.toNat))) % 256⟩, .ok ())

/-- Whether an `Except` outcome is a thrown exception. -/
def isThrow : Except String α → Bool
  | .error _ => true
  | .ok _ => false

/-! ## Raw line contents of the four sample files

Each definition lists the text lines of one sample file verbatim, in
order.  A line is a maximal newline-free segment of the file; a file
whose last byte is a newline contributes no extra empty line after it,
while a final unterminated segment (as in templates.cpp, which ends at
`}` with no trailing newline) counts as a line. -/

/-- The 36 text lines of basic_example.cpp (the file ends with a newline). -/
def basicExampleLines : List String :=
  [ "// example.cpp",
  "// 这是一个用于测试语法树解析功能的示例C++文件",
  "",
  "int factorial(int n) \x7b",
  "    if (n <= 1) \x7b",
  "        return 1;",
  "    \x7d",
  "    return n * factorial(n - 1);",
  "\x7d",
  "",
  "// 定义一个简单的类",
  "class Calculator \x7b",
  "public:",
  "    Calculator() : value(0) \x7b\x7d",
  "    ",
  "    // 计算阶乘并存储结果",
  "    void computeFactorial(int n) \x7b",
  "        value = factorial(n);",
  "    \x7d",
  "    ",
  "    // 获取计算结果",
  "    int getValue() const \x7b",
  "        return value;",
  "    \x7d",
  "    ",
  "private:",
  "    int value; // 存储计算结果",
  "\x7d;",
  "",
  "// 主函数",
  "int main() \x7b",
  "    Calculator calc;",
  "    calc.computeFactorial<Calculator>(5);",
  "    return calc.getValue();",
  "\x7d",
  "" ]

/-- The 104 text lines of data_structures.cpp (the file ends with a newline). -/
def dataStructuresLines : List String :=
  [ "// data_structures.cpp",
  "// 数据结构实现示例",
  "",
  "#include <iostream>",
  "#include <memory>",
  "",
  "struct Node_base \x7b\x7d;",
  "",
  "// 简单链表节点定义",
  "template<typename T>",
  "struct Node ",
  ": Node_base \x7b",
  "    T data;",
  "    std::shared_ptr<Node<T>> next;",
  "    ",
  "    Node(T value) : data(value), next(nullptr) \x7b\x7d",
  "",
  "    void print() const \x7b",
  "        std::cout << data << \" -> \" << (next ? next->data : \"nullptr\") << std::endl;",
  "    \x7d",
  "\x7d;",
  "",
  "// 链表类实现",
  "template<typename T>",
  "class LinkedList \x7b",
  "private:",
  "    std::shared_ptr<Node<T>> head;      // 链表头指针",
  "    size_t size;",
  "    ",
  "public:",
  "    LinkedList() : head(nullptr), size(0) \x7b\x7d",
  "    ",
  "    // 添加元素到链表头部",
  "    void push_front(T value) \x7b",
  "        auto new_node = std::make_shared<Node<T>>(value);",
  "        new_node->next = head;",
  "        head = new_node;",
  "        size++;",
  "    \x7d",
  "    ",
  "    // 添加元素到链表尾部",
  "    void push_back(T value) \x7b",
  "        auto new_node = std::make_shared<Node<T>>(value);",
  "        ",
  "        if (!head) \x7b",
  "            head = new_node;",
  "        \x7d else \x7b",
  "            auto current = head;",
  "            while (current->next) \x7b",
  "                current = current->next;",
  "            \x7d",
  "            current->next = new_node;",
  "        \x7d",
  "        size++;",
  "    \x7d",
  "    ",
  "    // 移除链表头部元素",
  "    void pop_front() \x7b",
  "        if (head) \x7b",
  "            head = head->next;",
  "            size--;",
  "        \x7d",
  "    \x7d",
  "    ",
  "    // 获取链表大小",
  "    size_t get_size() const \x7b",
  "        return size;",
  "    \x7d",
  "    ",
  "    // 打印链表内容",
  "    void print() const \x7b",
  "        auto current = head;",
  "        while (current) \x7b",
  "            std::cout << current->data << \" -> \";",
  "            current = current->next;",
  "        \x7d",
  "        std::cout << \"nullptr\" << std::endl;",
  "    \x7d",
  "\x7d;",
  "",
  "// 测试链表",
  "int main() \x7b",
  "    LinkedList<int> list;",
  "    ",
  "    // 添加元素",
  "    list.push_back(1);",
  "    list.push_back(2);",
  "    list.push_back(3);",
  "    list.push_front(0);",
  "    ",
  "    // 打印链表",
  "    std::cout << \"List size: \" << list.get_size() << std::endl;",
  "    list.print();",
  "    ",
  "    // 移除头部元素",
  "    list.pop_front();",
  "    ",
  "    // 再次打印",
  "    std::cout << \"After pop_front, list size: \" << list.get_size() << std::endl;",
  "    list.print();",
  "    ",
  "    return 0;",
  "\x7d",
  "" ]

/-- The 84 text lines of namespaces.cpp (the file ends with a newline). -/
def namespacesLines : List String :=
  [ "// namespaces.cpp",
  "// C++ 命名空间和作用域示例",
  "",
  "#include <iostream>",
  "#include <string>",
  "",
  "// 定义命名空间",
  "namespace math \x7b",
  "    const double PI = 3.14159265358979323846;",
  "    ",
  "    double square(double x) \x7b",
  "        return x * x;",
  "    \x7d",
  "    ",
  "    double cube(double x) \x7b",
  "        return x * x * x;",
  "    \x7d",
  "    ",
  "    // 嵌套命名空间",
  "    namespace geometry \x7b",
  "        struct Point \x7b",
  "            double x, y;",
  "            ",
  "            Point(double x_val = 0, double y_val = 0) : x(x_val), y(y_val) \x7b\x7d",
  "            ",
  "            double distance(const Point& other) const \x7b",
  "                return std::sqrt(square(x - other.x) + square(y - other.y));",
  "            \x7d",
  "        \x7d;",
  "        ",
  "        struct Circle \x7b",
  "            Point center;",
  "            double radius;",
  "            ",
  "            Circle(const Point& c, double r) : center(c), radius(r) \x7b\x7d",
  "            ",
  "            double area() const \x7b",
  "                return PI * square(radius);",
  "            \x7d",
  "            ",
  "            double circumference() const \x7b",
  "                return 2 * PI * radius;",
  "            \x7d",
  "        \x7d;",
  "    \x7d",
  "\x7d",
  "",
  "// 另一个命名空间",
  "namespace utils \x7b",
  "    void print_separator() \x7b",
  "        std::cout << \"------------------------------\" << std::endl;",
  "    \x7d",
  "    ",
  "    template<typename T>",
  "    void print_value(const std::string& name, const T& value) \x7b",
  "        std::cout << name << \" = \" << value << std::endl;",
  "    \x7d",
  "\x7d",
  "",
  "// 使用命名空间别名",
  "namespace geo = math::geometry;",
  "",
  "int main() \x7b",
  "    // 使用math命名空间",
  "    double val = 3.0;",
  "    std::cout << \"Square of \" << val << \" = \" << math::square(val) << std::endl;",
  "    std::cout << \"Cube of \" << val << \" = \" << math::cube(val) << std::endl;",
  "    ",
  "    utils::print_separator();",
  "    ",
  "    // 使用几何命名空间",
  "    geo::Point p1(3, 4);",
  "    geo::Point p2(6, 8);",
  "    ",
  "    utils::print_value(\"Distance between points\", p1.distance(p2));",
  "    ",
  "    // 创建圆",
  "    geo::Circle circle(p1, 5);",
  "    utils::print_value(\"Circle area\", circle.area());",
  "    utils::print_value(\"Circle circumference\", circle.circumference());",
  "    ",
  "    return 0;",
  "\x7d",
  "" ]

/-- The 105 text lines of templates.cpp (the file has no trailing newline). -/
def templatesLines : List String :=
  [ "// templates.cpp",
  "// C++ 模板示例",
  "",
  "#include <iostream>",
  "#include <vector>",
  "#include <string>",
  "",
  "// 基本函数模板",
  "template<typename T>",
  "T max(T a, T b) \x7b",
  "    return (a > b) ? a : b;",
  "\x7d",
  "",
  "// 类模板",
  "template<typename T, int Size>",
  "class Array \x7b",
  "private:",
  "    T data[Size];",
  "    ",
  "public:",
  "    Array() \x7b",
  "        for (int i = 0; i < Size; i++) \x7b",
  "            data[i] = T();",
  "        \x7d",
  "    \x7d",
  "    ",
  "    T& operator[](int index) \x7b",
  "        if (index < 0 || index >= Size) \x7b",
  "            throw std::out_of_range(\"Index out of range\");",
  "        \x7d",
  "        return data[index];",
  "    \x7d",
  "    ",
  "    int size() const \x7b",
  "        return Size;",
  "    \x7d",
  "\x7d;",
  "",
  "// 模板特化",
  "template<>",
  "class Array<bool, 8> \x7b",
  "private:",
  "    unsigned char data;",
  "    ",
  "public:",
  "    Array() : data(0) \x7b\x7d",
  "    ",
  "    bool operator[](int index) \x7b",
  "        if (index < 0 || index >= 8) \x7b",
  "            throw std::out_of_range(\"Index out of range\");",
  "        \x7d",
  "        return (data & (1 << index)) != 0;",
  "    \x7d",
  "    ",
  "    void set(int index, bool value) \x7b",
  "        if (index < 0 || index >= 8) \x7b",
  "            throw std::out_of_range(\"Index out of range\");",
  "        \x7d",
  "        ",
  "        if (value) \x7b",
  "            data |= (1 << index);",
  "        \x7d else \x7b",
  "            data &= ~(1 << index);",
  "        \x7d",
  "    \x7d",
  "    ",
  "    int size() const \x7b",
  "        return 8;",
  "    \x7d",
  "\x7d;",
  "",
  "// 变参模板",
  "template<typename... Args>",
  "void print(Args... args) \x7b",
  "    (std::cout << ... << args) << std::endl;",
  "\x7d",
  "",
  "int main() \x7b",
  "    // 使用函数模板",
  "    std::cout << \"Max of 10 and 20: \" << max(10, 20) << std::endl;",
  "    std::cout << \"Max of 3.14 and 2.71: \" << max(3.14, 2.71) << std::endl;",
  "    std::cout << \"Max of \x27a\x27 and \x27z\x27: \" << max(\x27a\x27, \x27z\x27) << std::endl;",
  "    ",
  "    // 使用类模板",
  "    Array<int, 5> intArray;",
  "    intArray[0] = 10;",
  "    intArray[1] = 20;",
  "    ",
  "    std::cout << \"intArray[0] = \" << intArray[0] << std::endl;",
  "    std::cout << \"intArray[1] = \" << intArray[1] << std::endl;",
  "    ",
  "    // 使用特化的模板",
  "    Array<bool, 8> boolArray;",
  "    boolArray.set(0, true);",
  "    boolArray.set(3, true);",
  "    ",
  "    std::cout << \"boolArray[0] = \" << boolArray[0] << std::endl;",
  "    std::cout << \"boolArray[1] = \" << boolArray[1] << std::endl;",
  "    std::cout << \"boolArray[3] = \" << boolArray[3] << std::endl;",
  "    ",
  "    // 使用变参模板",
  "    print(\"Hello\", \", \", \"world\", \"! \", 123);",
  "    ",
  "    return 0;",
  "\x7d" ]

/-! ## Helpers for the call-validity and feature claims -/

/-- Body of a function declaration (empty for other declarations). -/
def bodyOf : CppDecl → List Stmt
  | .functionDecl _ _ _ _ _ body => body
  | _ => []

/-- The member function of a class with the given name, if any. -/
def findMethod : CppDecl → String → Option MemberDecl
  | .classDecl _ _ _ _ _ members, nm =>
    members.find? (fun m => match m with
      | .methodM _ n _ _ _ _ _ => n == nm
      | _ => false)
  | _, _ => none

/-- Template parameters and parameter-type paths of a member function. -/
def methodSig : MemberDecl → Option (List TemplateParam × List (List String))
  | .methodM _ _ tps _ ps _ _ => some (tps, ps.map (fun p => typePath p.ptype))
  | _ => none

/-- Template-argument list carried by a call expression. -/
def callTargs : Expr → List TemplateArg
  | .call _ ta _ => ta
  | _ => []

/-- Modelled from the spec: the open question of spec section 9 — a call
whose callee is a member access naming a member function that is
declared with an empty template parameter list, while the call itself
carries a non-empty explicit template argument list, is invalid C++. -/
def invalidExplicitTemplateArgMemberCall (cls : CppDecl) : Expr → Bool
  | .call (.member _ m _) targs _ =>
    !targs.isEmpty && (match findMethod cls m with
      | some (.methodM _ _ tps _ _ _ _) => tps.isEmpty
      | _ => false)
  | _ => false

/-- Bool test for a variadic function template. -/
def isVariadicFnDecl : CppDecl → Bool
  | .functionDecl _ _ _ _ true _ => true
  | _ => false

/-- Whether any declaration of the unit is a variadic function template. -/
def hasVariadicFunctionTemplate (ds : List CppDecl) : Bool :=
  (declsInTreeList ds).any isVariadicFnDecl

/-- Bool test for a field whose type is `std::shared_ptr<...>`. -/
def memberIsSharedPtrField : MemberDecl → Bool
  | .fieldM _ _ t _ => typePath t == ["std", "shared_ptr"]
  | _ => false

/-- Whether some class of the unit has a smart-pointer-typed member. -/
def hasSharedPtrMember (ds : List CppDecl) : Bool :=
  (declsInTreeList ds).any (fun d => match d with
    | .classDecl _ _ _ _ _ members => members.any memberIsSharedPtrField
    | _ => false)

/-- Whether some namespace of the unit directly contains a namespace. -/
def hasNestedNamespace (ds : List CppDecl) : Bool :=
  (declsInTreeList ds).any (fun d => match d with
    | .namespaceDecl _ body => body.any isNamespaceDecl
    | _ => false)

/-- Whether the unit declares a namespace alias. -/
def hasNamespaceAlias (ds : List CppDecl) : Bool :=
  !(aliasesInList ds).isEmpty

/-- Bool test for a (free) function declaration. -/
def isFreeFunctionDecl : CppDecl → Bool
  | .functionDecl _ _ _ _ _ _ => true
  | _ => false

/-- Bool test for a class with a constructor, a field, and at least one
member under a non-default `private` access specifier. -/
def classWithCtorFieldAccess : CppDecl → Bool
  | .classDecl _ _ _ _ _ members =>
    members.any (fun m => match m with
      | .ctorM _ _ _ _ => true
      | _ => false) &&
    members.any (fun m => match m with
      | .fieldM _ _ _ _ => true
      | _ => false) &&
    members.any (fun m => match m with
      | .fieldM .priv _ _ _ => true
      | .ctorM .priv _ _ _ => true
      | .methodM .priv _ _ _ _ _ _ => true
      | _ => false)
  | _ => false

/-- Whether the unit declares an explicit full specialization. -/
def hasExplicitSpecialization (ds : List CppDecl) : Bool :=
  (classSummaries ds).any (fun c => !c.2.2.isEmpty)

/-- Bool test for an `if` statement. -/
def isIfStmt : Stmt → Bool
  | .ifStmt _ _ _ => true
  | _ => false

/-- Whether some function body of the unit opens with control flow
(an `if` statement at its top level). -/
def hasIfControlFlow (ds : List CppDecl) : Bool :=
  (declsInTreeList ds).any (fun d => (bodyOf d).any isIfStmt)

/-- Length of `appendLast`: the tail walk adds exactly one node. -/
theorem appendLast_length (xs : List T) (v : T) :
    (appendLast xs v).length = xs.length + 1 := by
  induction xs with
  | nil => rfl
  | cons x xs ih => simp [appendLast, ih]

/-! ## Claim theorems -/

/-- C1: templates.cpp contains exactly two class declarations named
`Array`, in order — first the primary template with exactly the template
parameters `typename T` and `int Size` and no specialization arguments,
then the `template<>` full specialization with no template parameters
and specialization arguments `[bool, 8]` — and the unit satisfies the
model invariant that non-empty specialization arguments imply empty
template parameters. -/
theorem templates_array_decls :
    classSummariesNamed "Array" templatesCpp =
      [("Array", [.typeParam "T", .nonTypeParam "int" "Size"], []),
       ("Array", [], [.typeArg (ty0 ["bool"]), .valueArg 8])] ∧
    specializationInvariant templatesCpp = true :=
  ⟨rfl, rfl⟩

/-- C2: namespaces.cpp declares exactly one top-level namespace `math`
(first) and one `utils` (second); `math` contains exactly one nested
namespace, `geometry`; neither `geometry` nor `utils` contains a
namespace; the file holds exactly one namespace alias, `geo`; and the
file holds exactly three namespace declarations in total. -/
theorem namespaces_shape :
    directNsNames namespacesCpp = ["math", "utils"] ∧
    childNsNames mathNs = ["geometry"] ∧
    childNsNames geometryNs = [] ∧
    childNsNames utilsNs = [] ∧
    aliasesInList namespacesCpp = [("geo", ["math", "geometry"])] ∧
    nsCountTree namespacesCpp = 3 :=
  ⟨rfl, rfl, rfl, rfl, rfl, rfl⟩

/-- C3: the declaration `namespace geo = math::geometry;` is the one
alias of namespaces.cpp, with target path `[math, geometry]`; the
references `geo::Point` in `main` (they occur twice) all substitute on
the leading segment to the absolute path `[math, geometry, Point]`; the
Resolver model resolves `geo::Point` from global scope to that path; and
that path names the struct `Point` declared inside `geometry` nested in
`math`. -/
theorem geo_alias_resolution :
    aliasesInList namespacesCpp = [("geo", ["math", "geometry"])] ∧
    applyAlias (aliasesInList namespacesCpp) ["geo", "Point"] =
      ["math", "geometry", "Point"] ∧
    (fnBodyPaths namespacesMainDecl).count ["geo", "Point"] = 2 ∧
    ((fnBodyPaths namespacesMainDecl).all (fun p =>
      p != ["geo", "Point"] ||
        applyAlias (aliasesInList namespacesCpp) p ==
          ["math", "geometry", "Point"])) = true ∧
    resolveRef namespacesCpp (aliasesInList namespacesCpp) [[]]
      ["geo", "Point"] = .resolved ["math", "geometry", "Point"] ∧
    findDeclAt namespacesCpp ["math", "geometry", "Point"] = some pointDecl :=
  ⟨rfl, rfl, rfl, rfl, rfl, rfl⟩

/-- C4: `Calculator::computeFactorial` is declared with no template
parameter list and one `int` parameter; the call
`calc.computeFactorial<Calculator>(5)` in `main` (its second statement)
carries the explicit template argument `Calculator`; hence the call
supplies explicit template arguments to a non-template member function,
which is invalid C++. -/
theorem computeFactorial_call_invalid :
    (findMethod calculatorDecl "computeFactorial").bind methodSig =
      some ([], [["int"]]) ∧
    callTargs computeFactorialCall = [.typeArg (ty0 ["Calculator"])] ∧
    (bodyOf basicMainDecl)[1]? = some (.exprStmt computeFactorialCall) ∧
    invalidExplicitTemplateArgMemberCall calculatorDecl computeFactorialCall
      = true :=
  ⟨rfl, rfl, rfl, rfl⟩

/-- C5: `factorial` is a total function of its 32-bit integer argument
(the Lean embedding is defined by well-founded recursion on `n.toNat`,
which strictly decreases at the recursive call since that call happens
only for `n > 1`): it returns 1 without recursing when `n <= 1`, and for
`n > 1` it returns `n * factorial(n - 1)` in wraparound 32-bit
arithmetic. -/
theorem factorial_eqn (n : Int) :
    (n ≤ 1 → factorial n = 1) ∧
    (1 < n → factorial n = wrap32 (n * factorial (n - 1))) := by
  constructor
  · intro h
    rw [factorial.eq_def]
    simp [h]
  · intro h
    rw [factorial.eq_def]
    simp [show ¬n ≤ 1 by omega]

/-- Witness for C5 at concrete inputs `n = 1` and `n = 4`. -/
theorem factorial_eqn_witness :
    factorial 1 = 1 ∧ factorial 4 = wrap32 (4 * factorial 3) :=
  ⟨(factorial_eqn 1).1 (by norm_num), (factorial_eqn 4).2 (by norm_num)⟩

/-- C6: for `LinkedList<T>`, the invariant `size = number of nodes
reachable from head` holds after the constructor and is preserved by
`push_front`, `push_back`, and `pop_front`; and `pop_front` on an empty
list (null `head`) leaves the list unchanged. -/
theorem linkedList_size_invariant (T : Type) (l : LinkedListM T) (v : T) :
    (LinkedListM.empty T).sizeInv ∧
    (l.sizeInv → (l.push_front v).sizeInv) ∧
    (l.sizeInv → (l.push_back v).sizeInv) ∧
    (l.sizeInv → l.pop_front.sizeInv) ∧
    (l.head = [] → l.pop_front = l) := by
  obtain ⟨hd, sz⟩ := l
  refine ⟨rfl, ?_, ?_, ?_, ?_⟩
  · intro h
    simp only [LinkedListM.sizeInv, LinkedListM.push_front] at *
    simp [h]
  · intro h
    simp only [LinkedListM.sizeInv, LinkedListM.push_back] at *
    simp [appendLast_length, h]
  · intro h
    simp only [LinkedListM.sizeInv, LinkedListM.pop_front] at *
    cases hd with
    | nil => simpa using h
    | cons x t =>
      simp at h
      simp [h]
  · intro h
    simp only [LinkedListM.pop_front]
    subst h
    rfl

/-- Witness for C6: the invariant survives a `push_front` on a concrete
two-node list, and `pop_front` on the concrete empty list is the
identity. -/
theorem linkedList_size_invariant_witness :
    ((⟨[3, 5], 2⟩ : LinkedListM Nat).push_front 1).sizeInv ∧
    (⟨[], 0⟩ : LinkedListM Nat).pop_front = ⟨[], 0⟩ :=
  ⟨(linkedList_size_invariant Nat ⟨[3, 5], 2⟩ 1).2.1 rfl,
   (linkedList_size_invariant Nat ⟨[], 0⟩ 0).2.2.2.2 rfl⟩

/-- C7: the primary template's `operator[]`, and the specialization's
`operator[]` and `set`, throw `std::out_of_range` exactly when
`index < 0` or `index >= Size` (`Size = 8` for the specialization), and
whenever the exception is thrown the object's stored data is
unchanged. -/
theorem array_out_of_range_iff (T : Type) (siz : Int) (a : CppArray T siz)
    (b : ArrayBool8) (i : Int) (v : Bool) :
    (isThrow (a.opIndex i).2 = true ↔ i < 0 ∨ i ≥ siz) ∧
    (a.opIndex i).1 = a ∧
    (isThrow (b.opIndex i).2 = true ↔ i < 0 ∨ i ≥ 8) ∧
    (b.opIndex i).1 = b ∧
    (isThrow (b.set i v).2 = true ↔ i < 0 ∨ i ≥ 8) ∧
    (isThrow (b.set i v).2 = true → (b.set i v).1 = b) := by
  refine ⟨?_, ?_, ?_, ?_, ?_, ?_⟩
  · by_cases h : i < 0 ∨ i ≥ siz <;> simp [CppArray.opIndex, h, isThrow]
  · by_cases h : i < 0 ∨ i ≥ siz <;> simp [CppArray.opIndex, h]
  · by_cases h : i < 0 ∨ i ≥ 8 <;> simp [ArrayBool8.opIndex, h, isThrow]
  · by_cases h : i < 0 ∨ i ≥ 8 <;> simp [ArrayBool8.opIndex, h]
  · cases v <;> (by_cases h : i < 0 ∨ i ≥ 8 <;>
      simp [ArrayBool8.set, h, isThrow])
  · intro ht
    by_cases h : i < 0 ∨ i ≥ 8
    · simp [ArrayBool8.set, h]
    · cases v <;> simp [ArrayBool8.set, h, isThrow] at ht

/-- Witness for C7 at the out-of-bounds index 9 on concrete objects. -/
theorem array_out_of_range_iff_witness :
    isThrow ((⟨fun _ => (0 : Int)⟩ : CppArray Int 5).opIndex 9).2 = true ∧
    ((⟨0⟩ : ArrayBool8).set 9 true).1 = ⟨0⟩ :=
  ⟨(array_out_of_range_iff Int 5 ⟨fun _ => 0⟩ ⟨0⟩ 9 true).1.mpr (by decide),
   (array_out_of_range_iff Int 5 ⟨fun _ => 0⟩ ⟨0⟩ 9 true).2.2.2.2.2 rfl⟩

/-- C8: every input-shape feature the spec enumerates occurs in at least
one sample: the variadic function template `print` in templates.cpp, a
`std::shared_ptr`-typed member in data_structures.cpp, nested and
aliased namespaces in namespaces.cpp, free functions, a class with
constructor, fields and access specifiers, an explicit template
specialization, and simple control flow. -/
theorem sample_features_present :
    hasVariadicFunctionTemplate templatesCpp = true ∧
    templatesCpp[6]? = some printDecl ∧
    isVariadicFnDecl printDecl = true ∧
    hasSharedPtrMember dataStructuresCpp = true ∧
    hasNestedNamespace namespacesCpp = true ∧
    hasNamespaceAlias namespacesCpp = true ∧
    (declsInTreeList basicExampleCpp).any isFreeFunctionDecl = true ∧
    (declsInTreeList basicExampleCpp).any classWithCtorFieldAccess = true ∧
    hasExplicitSpecialization templatesCpp = true ∧
    hasIfControlFlow basicExampleCpp = true :=
  ⟨rfl, rfl, rfl, rfl, rfl, rfl, rfl, rfl, rfl, rfl⟩

/-- C9: the text-line counts of the four sample files are 36, 104, 84
and 105, and they sum to exactly 329 (templates.cpp ends without a
trailing newline, so its final `}` counts as its 105th line). -/
theorem sample_line_total :
    basicExampleLines.length = 36 ∧
    dataStructuresLines.length = 104 ∧
    namespacesLines.length = 84 ∧
    templatesLines.length = 105 ∧
    basicExampleLines.length + dataStructuresLines.length +
      namespacesLines.length + templatesLines.length = 329 :=
  ⟨rfl, rfl, rfl, rfl, rfl⟩

/-- C10: running the Resolver twice on the same AST produces identical
`resolution_table` contents, and a run never changes the AST — the
Resolver model writes only the side table, recomputed deterministically
from the unchanged AST. -/
theorem resolver_idempotent (s : PipelineResult) :
    (runResolver (runResolver s)).resolutionTable =
      (runResolver s).resolutionTable ∧
    (runResolver s).astRoot = s.astRoot :=
  ⟨rfl, rfl⟩
